import Mathlib

/-
Shallow embedding of the PandaMania dashboard repository
(src/dashboard/app.py, src/dashboard/common.py,
src/dashboard/pages/2_Weekly_Output.py).

Numeric cells coming back from SQL are modelled as `Option ℚ`
(`none` = SQL NULL / pandas NaN, `some q` = a finite numeric value);
timestamps as `Option ℤ`.  Machine floats carry no payload here beyond
finite decimal values, so ℚ is the faithful carrier.
-/

/-! ### Secret resolution (app.py `_get_secret`, common.py `get_secret`) -/

/-- Normalise an optional string the way the Python truthiness checks do:
`none` and `some ""` both count as "no value". -/
def nonEmptyOpt (o : Option String) : Option String :=
  match o with
  | some s => if s = "" then none else some s
  | none => none

/-- Embedding of `_get_secret` (app.py lines 52-67).  `env` is the process
environment, `store` is the Streamlit secrets store: `none` models a store
that is absent or raises on access (the `except Exception: pass` path),
`some f` a readable store.  The function first takes a non-empty
environment value, then a non-empty store value, then the default. -/
def getSecret (env : String → Option String) (store : Option (String → Option String))
    (key : String) (dflt : Option String) : Option String :=
  let fromStore : Option String :=
    match store with
    | some f =>
      match f key with
      | some w => if w = "" then dflt else some w
      | none => dflt
    | none => dflt
  match env key with
  | some v => if v = "" then fromStore else some v
  | none => fromStore

/-- Resolver described by the spec (section 4.1): the first non-empty value
found by checking, in order, the environment, the secrets store, then the
supplied default; a missing or malformed store behaves like a missing key. -/
def specResolveSecret (env : String → Option String) (store : Option (String → Option String))
    (key : String) (dflt : Option String) : Option String :=
  match nonEmptyOpt (env key) with
  | some v => some v
  | none =>
    match nonEmptyOpt (match store with | some f => f key | none => none) with
    | some w => some w
    | none => dflt

/-! ### Login gate (app.py `require_login` lines 70-91) -/

/-- Embedding of one run of `require_login`.  `expected` is the resolved
`APP_PASSWORD` secret; `st0` is `st.session_state.authed` (`none` when the
key is not yet in the session state); `submitted` is the password submitted
via the login button this run (`none` when the button was not pressed).
Returns the session state after the run and whether the rest of the page
runs (`st.stop()` not reached). -/
def requireLogin (expected : Option String) (st0 : Option Bool) (submitted : Option String) :
    Option Bool × Bool :=
  match expected with
  | none => (st0, true)
  | some s =>
    if s = "" then (st0, true)
    else
      let a0 := st0.getD false
      if a0 then (some true, true)
      else
        match submitted with
        | some pw => (some (decide (pw = s)), decide (pw = s))
        | none => (some false, false)

/-! ### Engine construction (app.py `get_engine` lines 96-117) -/

/-- Embedding of the URL built from discrete fields (app.py line 116),
with the fixed port 5432. -/
def dbUrlFromParts (user pwd host name : String) : String :=
  "postgresql+psycopg2://" ++ user ++ ":" ++ pwd ++ "@" ++ host ++ ":5432/" ++ name

/-- Embedding of `get_engine`.  `g` resolves a config key to its secret
value (the composition of `_get_secret` over env and store).  The engine is
identified by the URL it is created from; `Except.error ()` models the
`st.error` + `st.stop()` fatal path. -/
def getEngine (g : String → Option String) : Except Unit String :=
  match nonEmptyOpt (g "DB_URL") with
  | some url => Except.ok url
  | none =>
    match nonEmptyOpt (g "DB_HOST"), nonEmptyOpt (g "DB_NAME"),
          nonEmptyOpt (g "DB_USER"), nonEmptyOpt (g "DB_PASSWORD") with
    | some host, some name, some user, some pwd =>
        Except.ok (dbUrlFromParts user pwd host name)
    | _, _, _, _ => Except.error ()

/-! ### Cached query executor (app.py `qdf` lines 119-123)

The caching machinery itself is `st.cache_data`, library code that is not
part of this repository. -/

/-- TTL constant from app.py line 8: `CACHE_TTL_SECONDS = 6 * 60 * 60`. -/
def CACHE_TTL_SECONDS : ℕ := 6 * 60 * 60

/-- Cache key: statement text plus the named-parameter mapping. -/
structure QKey where
  sql : String
  params : List (String × String)
deriving DecidableEq

/-- A tabular result: rows of optional cell values. -/
abbrev TabularResult := List (List (Option String))

/-- A cache: entries of key, materialized table, creation time (seconds). -/
abbrev QCache := List (QKey × TabularResult × ℕ)

/-- Modelled from the spec: the `st.cache_data` lookup used by `qdf` is not
in src/; per spec section 4.4 and the data model, an entry is valid only
within the fixed TTL window from its creation. -/
def cacheLookup (cache : QCache) (k : QKey) (now : ℕ) : Option TabularResult :=
  match cache with
  | [] => none
  | (k2, r, t) :: rest =>
    if k2 = k ∧ now < t + CACHE_TTL_SECONDS then some r else cacheLookup rest k now

/-- Modelled from the spec: one call of the cached query executor `qdf`.
`db` is the database, indexed by call time so that its answers may change
between calls.  A hit returns the materialized table without touching the
database; a miss executes the statement, stores the result, and returns it.
The final component records whether the database was executed. -/
def qdf (db : ℕ → QKey → TabularResult) (cache : QCache) (k : QKey) (now : ℕ) :
    TabularResult × QCache × Bool :=
  match cacheLookup cache k now with
  | some r => (r, cache, false)
  | none => (db now k, (k, db now k, now) :: cache, true)

/-- Modelled from the spec: the explicit user refresh clears the whole
cache unconditionally (app.py line 153, `st.cache_data.clear()`). -/
def clearCache : QCache := []

/-! ### Completeness classification (app.py lines 211-231) -/

/-- The four completeness bands (labels of app.py line 228). -/
inductive CoverageBand where
  | dead
  | sparse
  | partialLbl
  | good
deriving DecidableEq

/-- Embedding of `pd.cut` with an ascending bin list: right-closed
intervals `(bins i, bins (i+1)]`, `none` outside every bin. -/
def pdCut : List ℚ → List CoverageBand → ℚ → Option CoverageBand
  | lo :: hi :: bs, lab :: labs, x =>
    if lo < x ∧ x ≤ hi then some lab else pdCut (hi :: bs) labs x
  | _, _, _ => none

/-- Embedding of `coverage["status"]` (app.py lines 225-229):
`pd.cut(pct_not_null, bins=[-1, 5, 50, 90, 100], labels=[Dead, Sparse,
Partial, Good])`. -/
def coverageStatus (p : ℚ) : Option CoverageBand :=
  pdCut [-1, 5, 50, 90, 100]
    [CoverageBand.dead, CoverageBand.sparse, CoverageBand.partialLbl, CoverageBand.good] p

/-! ### Rounding (pandas `.round(n)`, numpy half-to-even) -/

/-- Round a rational to the nearest integer, ties to even
(numpy / pandas `round` semantics). -/
def roundHalfEven (q : ℚ) : ℤ :=
  let n : ℤ := ⌊q⌋
  let r : ℚ := q - n
  if r < 1/2 then n
  else if 1/2 < r then n + 1
  else if 2 ∣ n then n else n + 1

/-- Pandas `.round(2)`. -/
def round2 (q : ℚ) : ℚ := (roundHalfEven (q * 100) : ℚ) / 100

/-- Pandas `.round(1)`. -/
def round1 (q : ℚ) : ℚ := (roundHalfEven (q * 10) : ℚ) / 10

/-! ### Column completeness percentages (app.py lines 210-231) -/

/-- Embedding of `pct_not_null` for one column (app.py lines 211-220):
`df_historical.notna().mean().mul(100).round(2)`, with `nonnull` non-null
rows out of `total` rows. -/
def pctNotNull (nonnull total : ℕ) : ℚ :=
  round2 ((nonnull : ℚ) / (total : ℚ) * 100)

/-- Embedding of the `broken_cols` membership test (app.py line 231):
a column is broken when its `pct_not_null` is strictly below 100. -/
def brokenCol (nonnull total : ℕ) : Prop :=
  pctNotNull nonnull total < 100

instance (nonnull total : ℕ) : Decidable (brokenCol nonnull total) := by
  unfold brokenCol; infer_instance

/-! ### Trades volume-ratio pipeline (app.py lines 236-257) -/

/-- One row of `trade_backfill_processed` after timestamp coercion
(app.py line 237): numeric cells are NULL or a finite value, the
timestamp is NULL or an instant. -/
structure TradeRow where
  trades_sum_volume : Option ℚ
  market_volume : Option ℚ
  processed_at : Option ℤ
  ticker : String
deriving DecidableEq

/-- Embedding of `df_vol["volume_ratio"]` (app.py line 246):
`trades_sum_volume / market_volume`.  A NULL operand gives NULL; a zero
denominator gives a non-finite float (inf or NaN), which the pipeline's
`market_volume > 0` conjunct discards in every case, so the model maps it
to `none` as well. -/
def volumeRatio (r : TradeRow) : Option ℚ :=
  match r.trades_sum_volume, r.market_volume with
  | some u, some v => if v = 0 then none else some (u / v)
  | _, _ => none

/-- Embedding of the row filter mask (app.py lines 247-252):
`(market_volume > 0) & (trades_sum_volume >= 0) & (volume_ratio.notna())
& (processed_at.notna())`.  Comparisons with NULL are false in pandas. -/
def keepTrade (r : TradeRow) : Bool :=
  (match r.market_volume with | some v => decide (0 < v) | none => false) &&
  (match r.trades_sum_volume with | some u => decide (0 ≤ u) | none => false) &&
  (volumeRatio r).isSome &&
  r.processed_at.isSome

/-- Embedding of the filtered `df_vol` (app.py lines 247-252). -/
def filterTrades (rows : List TradeRow) : List TradeRow :=
  rows.filter keepTrade

/-- Embedding of `is_outside_band` (app.py line 254):
`~volume_ratio.between(low, high)`, where pandas `between` is inclusive on
both ends. -/
def isOutsideBand (low high x : ℚ) : Bool :=
  !(decide (low ≤ x) && decide (x ≤ high))

/-! ### Missingness heatmap (app.py lines 345-373) -/

/-- One row of a `(week_end_sun_ny, ticker_option)` heatmap group:
the row's ticker and the inspected column's cell. -/
structure HeatRow where
  ticker : String
  colVal : Option ℚ
deriving DecidableEq

/-- Pandas `nunique` on a list of (non-null) keys: the number of distinct
values. -/
def nunique : List String → ℕ
  | [] => 0
  | t :: rest => (if t ∈ rest then 0 else 1) + nunique rest

/-- Embedding of `total_games = ("ticker", "nunique")` for one group
(app.py line 349). -/
def totalGames (g : List HeatRow) : ℕ :=
  nunique (g.map HeatRow.ticker)

/-- Embedding of `missing_rows = (col, lambda s: s.isna().sum())` for one
group (app.py line 350). -/
def missingRows (g : List HeatRow) : ℕ :=
  (g.filter (fun r => r.colVal.isNone)).length

/-- Embedding of `pct_missing` (app.py line 355):
`(missing_rows / total_games * 100).round(1)`. -/
def pctMissing (g : List HeatRow) : ℚ :=
  round1 ((missingRows g : ℚ) / (totalGames g : ℚ) * 100)

/-- The heatmap color scale bounds (app.py lines 364-365, `zmin=0`,
`zmax=100`): the color mapping clamps the displayed value into this range,
the underlying cell value is not changed. -/
def colorClamp (x : ℚ) : ℚ :=
  max 0 (min 100 x)

/-! ### Concrete inputs used by witnesses and counterexamples -/

/-- A heatmap group whose one ticker occurs in two rows, both with a null
cell in the inspected column. -/
def heatGroupDup : List HeatRow :=
  [⟨"KXNBAGAME-25OCT01", none⟩, ⟨"KXNBAGAME-25OCT01", none⟩]

/-- A heatmap group of three distinct tickers with one null cell. -/
def heatGroupThird : List HeatRow :=
  [⟨"KXNBAGAME-A", none⟩, ⟨"KXNBAGAME-B", some 1⟩, ⟨"KXNBAGAME-C", some 1⟩]

/-- A configuration resolver exposing only a full DB_URL. -/
def envDbUrlOnly : String → Option String :=
  fun k => if k = "DB_URL" then some "postgresql://demo" else none

/-- A configuration resolver with no keys set. -/
def envEmpty : String → Option String :=
  fun _ => none

/-- A constant database. -/
def dbConst : ℕ → QKey → TabularResult :=
  fun _ _ => [[some "42"]]

/-- A demo cache key. -/
def qkeyDemo : QKey :=
  ⟨"SELECT * FROM markets2026 WHERE ticker LIKE ANY (ARRAY[:p0])", [("p0", "KXNBAGAME%")]⟩

/-! ## Theorems -/

/-- Claim C3: the completeness classification maps the exact boundary
values to the lower band: 90 to Partial, 90.01 to Good, 5 to Dead,
50 to Sparse, and 100 to Good. -/
theorem C3_boundary_values_lower_band :
    coverageStatus 90 = some CoverageBand.partialLbl ∧
    coverageStatus (9001/100) = some CoverageBand.good ∧
    coverageStatus 5 = some CoverageBand.dead ∧
    coverageStatus 50 = some CoverageBand.sparse ∧
    coverageStatus 100 = some CoverageBand.good := by
  refine ⟨?_, ?_, ?_, ?_, ?_⟩ <;> norm_num [coverageStatus, pdCut]

/-- Claim C2, counterexample: the claim assigns Good to every p ≥ 90, but
the code classifies p = 90 as Partial, not Good. -/
theorem C2_counterexample_ninety_not_good :
    coverageStatus 90 = some CoverageBand.partialLbl ∧
    coverageStatus 90 ≠ some CoverageBand.good := by
  constructor
  · norm_num [coverageStatus, pdCut]
  · norm_num [coverageStatus, pdCut]
    decide

/-- Claim C2 (amended): for p in [0, 100] the classification uses
right-closed bands: Dead when p ≤ 5, Sparse when 5 < p ≤ 50, Partial when
50 < p ≤ 90, and Good when 90 < p (so 100 is Good and each boundary value
5, 50, 90 belongs to the lower band). -/
theorem C2_amended_right_closed_bands (p : ℚ) (h0 : 0 ≤ p) (h100 : p ≤ 100) :
    (p ≤ 5 → coverageStatus p = some CoverageBand.dead) ∧
    (5 < p → p ≤ 50 → coverageStatus p = some CoverageBand.sparse) ∧
    (50 < p → p ≤ 90 → coverageStatus p = some CoverageBand.partialLbl) ∧
    (90 < p → coverageStatus p = some CoverageBand.good) := by
  refine ⟨fun h5 => ?_, fun h5 h50 => ?_, fun h50 h90 => ?_, fun h90 => ?_⟩ <;>
    simp only [coverageStatus, pdCut]
  · rw [if_pos ⟨by linarith, h5⟩]
  · rw [if_neg (by rintro ⟨_, hx⟩; linarith), if_pos ⟨h5, h50⟩]
  · rw [if_neg (by rintro ⟨_, hx⟩; linarith), if_neg (by rintro ⟨_, hx⟩; linarith),
      if_pos ⟨h50, h90⟩]
  · rw [if_neg (by rintro ⟨_, hx⟩; linarith), if_neg (by rintro ⟨_, hx⟩; linarith),
      if_neg (by rintro ⟨_, hx⟩; linarith), if_pos ⟨h90, h100⟩]

/-- Witness for C2_amended_right_closed_bands at p = 42. -/
theorem C2_amended_right_closed_bands_witness :
    (0:ℚ) ≤ 42 ∧ (42:ℚ) ≤ 100 ∧ (5:ℚ) < 42 ∧ (42:ℚ) ≤ 50 ∧
    coverageStatus 42 = some CoverageBand.sparse :=
  ⟨by norm_num, by norm_num, by norm_num, by norm_num,
    (C2_amended_right_closed_bands 42 (by norm_num) (by norm_num)).2.1
      (by norm_num) (by norm_num)⟩

/-- Claim C4: a retained trade row is flagged outside-band iff its ratio is
strictly below low or strictly above high; ratios exactly equal to low or
high are inside-band. -/
theorem C4_outside_band_iff (low high x : ℚ) :
    (isOutsideBand low high x = true ↔ (x < low ∨ high < x)) ∧
    (low ≤ high →
      isOutsideBand low high low = false ∧ isOutsideBand low high high = false) := by
  constructor
  · simp only [isOutsideBand, Bool.not_eq_true', Bool.and_eq_false_iff,
      decide_eq_false_iff_not, not_le]
  · intro h
    constructor <;> simp [isOutsideBand, h]

/-- Witness for C4_outside_band_iff with the default band [0.98, 1.02]. -/
theorem C4_outside_band_iff_witness :
    ((98/100 : ℚ) ≤ 102/100) ∧
    isOutsideBand (98/100) (102/100) (98/100) = false ∧
    isOutsideBand (98/100) (102/100) (102/100) = false :=
  ⟨by norm_num,
    ((C4_outside_band_iff (98/100) (102/100) 1).2 (by norm_num)).1,
    ((C4_outside_band_iff (98/100) (102/100) 1).2 (by norm_num)).2⟩

/-- Claim C10, counterexample: the displayed group value is rounded to one
decimal, so for one null row over three distinct tickers it is 33.3, not
the exact 100·1/3 the claim states. -/
theorem C10_counterexample_rounded_value :
    pctMissing heatGroupThird = 333/10 ∧
    (100 : ℚ) * (missingRows heatGroupThird : ℚ) / (totalGames heatGroupThird : ℚ) = 100/3 ∧
    pctMissing heatGroupThird ≠
      100 * (missingRows heatGroupThird : ℚ) / (totalGames heatGroupThird : ℚ) := by
  have hm : missingRows heatGroupThird = 1 := by decide
  have ht : totalGames heatGroupThird = 3 := by decide
  have h1 : pctMissing heatGroupThird = 333/10 := by
    unfold pctMissing
    rw [hm, ht]
    norm_num [round1, roundHalfEven]
  have h2 : (100 : ℚ) * (missingRows heatGroupThird : ℚ) / (totalGames heatGroupThird : ℚ)
      = 100/3 := by
    rw [hm, ht]; norm_num
  refine ⟨h1, h2, ?_⟩
  rw [h1, h2]
  norm_num

/-- Claim C10 (amended): each (week, category) group's displayed missing
percentage equals 100 times the null-row count divided by the distinct
ticker count, rounded to one decimal; when a ticker occurs in more than one
row of a group the value can exceed 100, and only the heatmap color scale,
not the value, is clipped to 0-100. -/
theorem C10_amended_heat_pct :
    (∀ g : List HeatRow,
      pctMissing g = round1 (100 * (missingRows g : ℚ) / (totalGames g : ℚ))) ∧
    pctMissing heatGroupDup = 200 ∧
    (100 : ℚ) < pctMissing heatGroupDup ∧
    colorClamp (pctMissing heatGroupDup) = 100 := by
  have hm : missingRows heatGroupDup = 2 := by decide
  have ht : totalGames heatGroupDup = 1 := by decide
  have h200 : pctMissing heatGroupDup = 200 := by
    unfold pctMissing
    rw [hm, ht]
    norm_num [round1, roundHalfEven]
  refine ⟨fun g => ?_, h200, ?_, ?_⟩
  · unfold pctMissing
    congr 1
    ring
  · rw [h200]; norm_num
  · rw [h200]; norm_num [colorClamp]

/-- Claim C6: the volume-ratio pipeline retains exactly the rows with a
strictly positive denominator, a non-negative numerator, a defined (finite)
ratio, and a present timestamp. -/
theorem C6_volume_pipeline_filter (rows : List TradeRow) (r : TradeRow) :
    r ∈ filterTrades rows ↔
      r ∈ rows ∧
      ((∃ v, r.market_volume = some v ∧ 0 < v) ∧
       (∃ u, r.trades_sum_volume = some u ∧ 0 ≤ u) ∧
       (volumeRatio r).isSome = true ∧
       r.processed_at.isSome = true) := by
  have hk : keepTrade r = true ↔
      ((∃ v, r.market_volume = some v ∧ 0 < v) ∧
       (∃ u, r.trades_sum_volume = some u ∧ 0 ≤ u) ∧
       (volumeRatio r).isSome = true ∧
       r.processed_at.isSome = true) := by
    rcases r with ⟨tsv, mv, ts, tk⟩
    rcases tsv with _ | u <;> rcases mv with _ | v <;> rcases ts with _ | t <;>
      simp [keepTrade, volumeRatio, apply_ite Option.isSome]
    tauto
  rw [filterTrades, List.mem_filter, hk]

/-- Claim C7: the secret resolver returns the first non-empty value among
the environment variable, the secrets store, then the default, and an
absent or malformed secrets store behaves exactly like a store without the
key (no exception escapes). -/
theorem C7_secret_resolution (env : String → Option String)
    (store : Option (String → Option String)) (key : String) (dflt : Option String) :
    getSecret env store key dflt = specResolveSecret env store key dflt ∧
    getSecret env none key dflt = getSecret env (some fun _ => none) key dflt := by
  constructor
  · rcases store with _ | f
    · rcases henv : env key with _ | v
      · simp [getSecret, specResolveSecret, nonEmptyOpt, henv]
      · simp [getSecret, specResolveSecret, nonEmptyOpt, henv]
        split_ifs <;> simp
    · rcases henv : env key with _ | v <;> rcases hf : f key with _ | w <;>
        simp [getSecret, specResolveSecret, nonEmptyOpt, henv, hf] <;>
        split_ifs <;> simp_all
  · rcases henv : env key with _ | v <;> simp [getSecret, henv]

/-- Claim C8: the access gate is bypassed when the password secret is
absent or empty; otherwise a locked session unlocks exactly on an exact
string match of the submitted password, an unlocked session stays unlocked,
and a locked session with a wrong or no submission stays locked and does
not run the page. -/
theorem C8_login_gate :
    (∀ (st0 : Option Bool) (sub : Option String),
        requireLogin none st0 sub = (st0, true) ∧
        requireLogin (some "") st0 sub = (st0, true)) ∧
    (∀ (s : String) (st0 : Option Bool) (sub : Option String), s ≠ "" → st0 = some true →
        requireLogin (some s) st0 sub = (some true, true)) ∧
    (∀ (s : String) (st0 : Option Bool) (pw : String), s ≠ "" → st0.getD false = false →
        ((requireLogin (some s) st0 (some pw)).1 = some true ↔ pw = s) ∧
        ((requireLogin (some s) st0 (some pw)).2 = true ↔ pw = s)) ∧
    (∀ (s : String) (st0 : Option Bool), s ≠ "" → st0.getD false = false →
        requireLogin (some s) st0 none = (some false, false)) := by
  refine ⟨fun st0 sub => ⟨rfl, by simp [requireLogin]⟩,
    fun s st0 sub hs hst => ?_, fun s st0 pw hs hst => ?_, fun s st0 hs hst => ?_⟩
  · subst hst
    simp [requireLogin, hs]
  · simp [requireLogin, hs, hst]
  · simp [requireLogin, hs, hst]

/-- Witness for C8_login_gate: with password secret "hunter2", a locked
fresh session unlocks on the exact password and stays locked on a wrong
one. -/
theorem C8_login_gate_witness :
    ("hunter2" : String) ≠ "" ∧
    (none : Option Bool).getD false = false ∧
    (requireLogin (some "hunter2") none (some "hunter2")).2 = true ∧
    (requireLogin (some "hunter2") none (some "wrong")).2 = false := by
  have hs : ("hunter2" : String) ≠ "" := by decide
  refine ⟨hs, rfl, ?_, ?_⟩
  · exact ((C8_login_gate.2.2.1 "hunter2" none "hunter2" hs rfl).2).mpr rfl
  · have h := (C8_login_gate.2.2.1 "hunter2" none "wrong" hs rfl).2
    cases hb : (requireLogin (some "hunter2") none (some "wrong")).2
    · rfl
    · exact absurd (h.mp hb) (by decide)

/-- Claim C9: engine construction prefers a non-empty DB_URL; otherwise it
combines the four discrete fields into a URL with the fixed port 5432; if
DB_URL is absent and any discrete field is missing it halts with an error
and returns no connection handle. -/
theorem C9_engine_selection (g : String → Option String) :
    (∀ url, nonEmptyOpt (g "DB_URL") = some url → getEngine g = Except.ok url) ∧
    (∀ host name user pwd,
        nonEmptyOpt (g "DB_URL") = none →
        nonEmptyOpt (g "DB_HOST") = some host →
        nonEmptyOpt (g "DB_NAME") = some name →
        nonEmptyOpt (g "DB_USER") = some user →
        nonEmptyOpt (g "DB_PASSWORD") = some pwd →
        getEngine g = Except.ok (dbUrlFromParts user pwd host name)) ∧
    (nonEmptyOpt (g "DB_URL") = none →
      (nonEmptyOpt (g "DB_HOST") = none ∨ nonEmptyOpt (g "DB_NAME") = none ∨
       nonEmptyOpt (g "DB_USER") = none ∨ nonEmptyOpt (g "DB_PASSWORD") = none) →
      getEngine g = Except.error ()) := by
  refine ⟨?_, ?_, ?_⟩
  · intro url h
    unfold getEngine
    rw [h]
  · intro host name user pwd h0 h1 h2 h3 h4
    unfold getEngine
    rw [h0, h1, h2, h3, h4]
  · intro h0 hcase
    unfold getEngine
    rw [h0]
    rcases hH : nonEmptyOpt (g "DB_HOST") with _ | host <;>
      rcases hN : nonEmptyOpt (g "DB_NAME") with _ | name <;>
      rcases hU : nonEmptyOpt (g "DB_USER") with _ | user <;>
      rcases hP : nonEmptyOpt (g "DB_PASSWORD") with _ | pwd <;>
      simp_all

/-- Witness for C9_engine_selection: a configuration with only DB_URL set
yields an engine on that URL, and an empty configuration halts with an
error. -/
theorem C9_engine_selection_witness :
    nonEmptyOpt (envDbUrlOnly "DB_URL") = some "postgresql://demo" ∧
    getEngine envDbUrlOnly = Except.ok "postgresql://demo" ∧
    nonEmptyOpt (envEmpty "DB_URL") = none ∧
    nonEmptyOpt (envEmpty "DB_HOST") = none ∧
    getEngine envEmpty = Except.error () := by
  have h1 : nonEmptyOpt (envDbUrlOnly "DB_URL") = some "postgresql://demo" := by decide
  have h2 : nonEmptyOpt (envEmpty "DB_URL") = none := rfl
  have h3 : nonEmptyOpt (envEmpty "DB_HOST") = none := rfl
  exact ⟨h1, (C9_engine_selection envDbUrlOnly).1 _ h1, h2, h3,
    (C9_engine_selection envEmpty).2.2 h2 (Or.inl h3)⟩

/-- Claim C1: a second call to the cached query executor with the same
statement and parameters, made within the 6-hour TTL window of a first
(caching) call, does not execute against the database and returns a result
equal to the first call's result. -/
theorem C1_cache_hit_within_ttl (db : ℕ → QKey → TabularResult) (cache0 : QCache)
    (k : QKey) (t1 t2 : ℕ)
    (hmiss : cacheLookup cache0 k t1 = none) (_h12 : t1 ≤ t2)
    (hTTL : t2 < t1 + CACHE_TTL_SECONDS) :
    (qdf db ((qdf db cache0 k t1).2.1) k t2).1 = (qdf db cache0 k t1).1 ∧
    (qdf db ((qdf db cache0 k t1).2.1) k t2).2.2 = false := by
  have e1 : qdf db cache0 k t1 = (db t1 k, (k, db t1 k, t1) :: cache0, true) := by
    unfold qdf
    rw [hmiss]
  rw [e1]
  have e2 : cacheLookup ((k, db t1 k, t1) :: cache0) k t2 = some (db t1 k) := by
    unfold cacheLookup
    rw [if_pos ⟨rfl, hTTL⟩]
  constructor <;> simp [qdf, e2]

/-- Witness for C1_cache_hit_within_ttl: a cold cache, a first call at
t = 0 and a second call at t = 100 seconds (inside the 21600-second TTL). -/
theorem C1_cache_hit_within_ttl_witness :
    cacheLookup [] qkeyDemo 0 = none ∧ 0 ≤ 100 ∧ 100 < 0 + CACHE_TTL_SECONDS ∧
    (qdf dbConst ((qdf dbConst [] qkeyDemo 0).2.1) qkeyDemo 100).1 =
      (qdf dbConst [] qkeyDemo 0).1 ∧
    (qdf dbConst ((qdf dbConst [] qkeyDemo 0).2.1) qkeyDemo 100).2.2 = false := by
  have h0 : cacheLookup [] qkeyDemo 0 = none := rfl
  have h1 : (0:ℕ) ≤ 100 := by decide
  have h2 : (100:ℕ) < 0 + CACHE_TTL_SECONDS := by decide
  have h := C1_cache_hit_within_ttl dbConst [] qkeyDemo 0 100 h0 h1 h2
  exact ⟨h0, h1, h2, h.1, h.2⟩

/-- Helper: for a rational z below an even integer bound B, the
half-to-even rounding of z drops below B exactly when z is below B - 1/2
(the tie z = B - 1/2 rounds up to the even B). -/
theorem roundHalfEven_lt_even_bound (z : ℚ) (B : ℤ) (hzB : z ≤ (B:ℚ)) (hB : 2 ∣ B) :
    roundHalfEven z < B ↔ z < (B:ℚ) - 1/2 := by
  have hm1 : (⌊z⌋ : ℚ) ≤ z := Int.floor_le z
  have hm2 : z < ⌊z⌋ + 1 := Int.lt_floor_add_one z
  have hmB : ⌊z⌋ ≤ B := by
    have h : (⌊z⌋ : ℚ) ≤ (B:ℚ) := le_trans hm1 hzB
    exact_mod_cast h
  simp only [roundHalfEven]
  split_ifs with h1 h2 h3
  · constructor
    · intro h
      have hle : ⌊z⌋ + 1 ≤ B := h
      have hleQ : ((⌊z⌋:ℚ) + 1) ≤ (B:ℚ) := by exact_mod_cast hle
      linarith
    · intro h
      have hQ : (⌊z⌋:ℚ) < (B:ℚ) := by linarith
      exact_mod_cast hQ
  · constructor
    · intro h
      have hle : ⌊z⌋ + 2 ≤ B := by omega
      have hleQ : ((⌊z⌋:ℚ) + 2) ≤ (B:ℚ) := by exact_mod_cast hle
      linarith
    · intro h
      have hQ : ((⌊z⌋:ℚ) + 1) < (B:ℚ) := by linarith
      exact_mod_cast hQ
  · have heq : z = (⌊z⌋:ℚ) + 1/2 := by
      push_neg at h1 h2
      linarith
    have hmltB : ⌊z⌋ < B := by
      have hQ : (⌊z⌋:ℚ) + 1/2 ≤ (B:ℚ) := by rw [← heq]; exact hzB
      have hQ2 : (⌊z⌋:ℚ) < (B:ℚ) := by linarith
      exact_mod_cast hQ2
    have hm2B : ⌊z⌋ ≤ B - 2 := by omega
    constructor
    · intro _
      have hQ : (⌊z⌋:ℚ) ≤ (B:ℚ) - 2 := by exact_mod_cast hm2B
      linarith
    · intro _
      exact hmltB
  · have heq : z = (⌊z⌋:ℚ) + 1/2 := by
      push_neg at h1 h2
      linarith
    constructor
    · intro h
      have hle : ⌊z⌋ + 2 ≤ B := by omega
      have hleQ : ((⌊z⌋:ℚ) + 2) ≤ (B:ℚ) := by exact_mod_cast hle
      linarith
    · intro h
      have hQ : (⌊z⌋:ℚ) < (B:ℚ) - 1 := by linarith
      have hZ : ⌊z⌋ < B - 1 := by exact_mod_cast hQ
      omega

/-- Claim C5, counterexample: a column with exactly one null among 100000
rows has exact non-null percentage 99.999 < 100, yet its two-decimal
rounded `pct_not_null` is 100.00, so the code does not report it broken. -/
theorem C5_counterexample_rounded_to_100 :
    99999 < 100000 ∧
    (100 : ℚ) * 99999 / 100000 < 100 ∧
    ¬ brokenCol 99999 100000 := by
  refine ⟨by norm_num, by norm_num, ?_⟩
  unfold brokenCol pctNotNull round2
  norm_num [roundHalfEven]

/-- Claim C5 (amended): a column is reported broken iff its non-null
percentage rounded to two decimals is strictly below 100, equivalently iff
its non-null fraction is below 19999/20000; a column with at least one null
can still be reported non-broken when its percentage rounds to 100.00. -/
theorem C5_amended_broken_threshold (nonnull total : ℕ)
    (ht : 0 < total) (hnt : nonnull ≤ total) :
    brokenCol nonnull total ↔ 20000 * nonnull < 19999 * total := by
  have htQ : (0:ℚ) < (total:ℚ) := by exact_mod_cast ht
  have hntQ : (nonnull:ℚ) ≤ (total:ℚ) := by exact_mod_cast hnt
  have hzB : (nonnull:ℚ)/(total:ℚ)*100*100 ≤ ((10000:ℤ):ℚ) := by
    push_cast
    rw [div_mul_eq_mul_div, div_mul_eq_mul_div, div_le_iff₀ htQ]
    linarith
  have key := roundHalfEven_lt_even_bound ((nonnull:ℚ)/(total:ℚ)*100*100) 10000 hzB
    (by norm_num)
  unfold brokenCol pctNotNull round2
  rw [div_lt_iff₀ (by norm_num : (0:ℚ) < 100)]
  rw [show (100:ℚ)*100 = ((10000:ℤ):ℚ) by norm_num]
  rw [Int.cast_lt]
  rw [key]
  rw [div_mul_eq_mul_div, div_mul_eq_mul_div, div_lt_iff₀ htQ]
  constructor
  · intro h
    have hQ : 20000*(nonnull:ℚ) < 19999*(total:ℚ) := by
      push_cast at h ⊢
      linarith
    exact_mod_cast hQ
  · intro h
    have hQ : 20000*(nonnull:ℚ) < 19999*(total:ℚ) := by exact_mod_cast h
    push_cast
    linarith

/-- Witness for C5_amended_broken_threshold: a fully null column over one
row is broken. -/
theorem C5_amended_broken_threshold_witness :
    0 < 1 ∧ 0 ≤ 1 ∧ brokenCol 0 1 :=
  ⟨by decide, by decide,
    (C5_amended_broken_threshold 0 1 (by decide) (by decide)).mpr (by norm_num)⟩
